import Mathlib

/-!
Shallow embedding of the DT date/time UDP client and server
(src/server.py and src/client.py) and proofs about the frozen claims.

Python byte strings are modelled as lists of natural numbers (each byte a
value below 256); Python text strings that travel over the wire are
represented by their UTF-8 byte sequences.
-/

/-- Constant MAGIC_NUM from both source files (0x36FB). -/
def MAGIC_NUM : Nat := 0x36FB

/-- Constant REQUEST_DATE from both source files. -/
def REQUEST_DATE : Nat := 0x0001

/-- Constant REQUEST_TIME from both source files. -/
def REQUEST_TIME : Nat := 0x0002

/-- UTF-8 encoding of a single unicode code point, used to embed the
Python string literals of the source as byte lists. -/
def charUtf8 (c : Char) : List Nat :=
  let n := c.toNat
  if n < 0x80 then [n]
  else if n < 0x800 then [0xC0 + n / 64, 0x80 + n % 64]
  else if n < 0x10000 then [0xE0 + n / 4096, 0x80 + (n / 64) % 64, 0x80 + n % 64]
  else [0xF0 + n / 262144, 0x80 + (n / 4096) % 64, 0x80 + (n / 64) % 64, 0x80 + n % 64]

/-- UTF-8 byte sequence of a string (models Python str.encode with utf-8). -/
def utf8 (s : String) : List Nat :=
  s.data.flatMap charUtf8

/-- State of the byte-at-a-time UTF-8 acceptor: how many continuation
bytes are still expected, and the allowed range for the next one. -/
structure Utf8State where
  pending : Nat
  lo : Nat
  hi : Nat
deriving DecidableEq

/-- One byte of UTF-8 validation, following the standard Unicode
well-formed byte table (RFC 3629): lead bytes C2-DF, E0 (second byte
A0-BF), E1-EC, ED (second byte 80-9F, excluding surrogates), EE-EF, F0
(second byte 90-BF), F1-F3, F4 (second byte 80-8F); anything else at the
start of a sequence, and any out-of-range continuation byte, is invalid.
This is exactly what Python bytes.decode with utf-8 accepts. -/
def utf8Step (st : Utf8State) (b : Nat) : Option Utf8State :=
  if st.pending = 0 then
    if b ≤ 127 then some ⟨0, 0, 0⟩
    else if 194 ≤ b ∧ b ≤ 223 then some ⟨1, 128, 191⟩
    else if b = 224 then some ⟨2, 160, 191⟩
    else if 225 ≤ b ∧ b ≤ 236 then some ⟨2, 128, 191⟩
    else if b = 237 then some ⟨2, 128, 159⟩
    else if 238 ≤ b ∧ b ≤ 239 then some ⟨2, 128, 191⟩
    else if b = 240 then some ⟨3, 144, 191⟩
    else if 241 ≤ b ∧ b ≤ 243 then some ⟨3, 128, 191⟩
    else if b = 244 then some ⟨3, 128, 143⟩
    else none
  else if st.lo ≤ b ∧ b ≤ st.hi then some ⟨st.pending - 1, 128, 191⟩
  else none

/-- Run of the UTF-8 acceptor over a byte list. -/
def utf8Run : Utf8State → List Nat → Option Utf8State
  | st, [] => some st
  | st, b :: rest =>
    match utf8Step st b with
    | none => none
    | some st2 => utf8Run st2 rest

/-- Validity of a byte sequence starting from a given acceptor state. -/
def validFrom (st : Utf8State) (l : List Nat) : Bool :=
  match utf8Run st l with
  | some st2 => decide (st2.pending = 0)
  | none => false

/-- Validity of a byte sequence as UTF-8 (what Python bytes.decode with
utf-8 in strict mode accepts): no overlong forms, no surrogates, nothing
above U+10FFFF, no truncated sequences. -/
def validUtf8 (l : List Nat) : Bool :=
  validFrom ⟨0, 0, 0⟩ l

example : validUtf8 (utf8 "Māori") = true := by decide
example : validUtf8 [196] = false := by decide
example : validUtf8 [237, 160, 128] = false := by decide
example : validUtf8 [224, 160, 128] = true := by decide

/-- Decimal digit byte sequence of a natural number; models the rendering
of a Python integer inside an f-string (str of a nonnegative int). -/
def decBytes (n : Nat) : List Nat :=
  if n = 0 then [48] else (Nat.digits 10 n).reverse.map (fun d => 48 + d)

/-- Two-digit zero-padded decimal rendering; models the Python f-string
format spec 02 applied to a nonnegative integer. -/
def pad2 (n : Nat) : List Nat :=
  if n < 10 then [48, 48 + n] else decBytes n

/-- MONTH_NAMES entry for English in src/server.py, as UTF-8 byte lists. -/
def englishMonths : List (List Nat) :=
  [utf8 "January", utf8 "February", utf8 "March", utf8 "April", utf8 "May", utf8 "June",
   utf8 "July", utf8 "August", utf8 "September", utf8 "October", utf8 "November",
   utf8 "December"]

/-- MONTH_NAMES entry for Māori in src/server.py, as UTF-8 byte lists. -/
def maoriMonths : List (List Nat) :=
  [utf8 "Kohi-tātea", utf8 "Hui-tanguru", utf8 "Poutū-te-rangi", utf8 "Paenga-whāwhā",
   utf8 "Haratua", utf8 "Pipiri", utf8 "Hōngingoi", utf8 "Here-turi-kōkā", utf8 "Mahuru",
   utf8 "Whiringa-ā-nuku", utf8 "Whiringa-ā-rangi", utf8 "Hakihea"]

/-- MONTH_NAMES entry for German in src/server.py, as UTF-8 byte lists. -/
def germanMonths : List (List Nat) :=
  [utf8 "Januar", utf8 "Februar", utf8 "März", utf8 "April", utf8 "Mai", utf8 "Juni",
   utf8 "Juli", utf8 "August", utf8 "September", utf8 "Oktober", utf8 "November",
   utf8 "Dezember"]

/-- Lookup in the MONTH_NAMES dictionary of src/server.py; none models the
KeyError a Python dict raises on an unknown language key. -/
def monthTable (language : String) : Option (List (List Nat)) :=
  if language = "English" then some englishMonths
  else if language = "Māori" then some maoriMonths
  else if language = "German" then some germanMonths
  else none

/-- Timestamp model for datetime.datetime values used by the server (only
the fields the server reads). -/
structure DateTime where
  year : Nat
  month : Nat
  day : Nat
  hour : Nat
  minute : Nat
deriving DecidableEq

/-- Field ranges every Python datetime.datetime value satisfies: year in
1..9999, month 1..12, day 1..31, hour 0..23, minute 0..59. -/
def validDateTime (dt : DateTime) : Prop :=
  1 ≤ dt.year ∧ dt.year ≤ 9999 ∧ 1 ≤ dt.month ∧ dt.month ≤ 12 ∧
    1 ≤ dt.day ∧ dt.day ≤ 31 ∧ dt.hour ≤ 23 ∧ dt.minute ≤ 59

instance (dt : DateTime) : Decidable (validDateTime dt) := by
  unfold validDateTime; infer_instance

/-- Fixed text of the English date template of tell_it_what_it_is, up to the
month name (the apostrophe is byte 39). -/
def engDateP1 : List Nat := utf8 "Today" ++ 39 :: utf8 "s date is "

/-- Fixed text of the Māori date template, up to the month name. -/
def maoriDateP1 : List Nat := utf8 "Ko te rā o tēnei rā ko "

/-- Fixed text of the German date template, up to the day number. -/
def gerDateP1 : List Nat := utf8 "Heute ist der "

/-- Fixed text of the English time template, up to the hour. -/
def engTimeP1 : List Nat := utf8 "The current time is "

/-- Fixed text of the Māori time template, up to the hour. -/
def maoriTimeP1 : List Nat := utf8 "Ko te wā o tēnei wā "

/-- Fixed text of the German time template, up to the hour. -/
def gerTimeP1 : List Nat := utf8 "Die Uhrzeit ist "

/-- One space byte. -/
def spByte : List Nat := utf8 " "

/-- Comma and space. -/
def commaSp : List Nat := utf8 ", "

/-- Dot and space (German date template). -/
def dotSp : List Nat := utf8 ". "

/-- Colon byte (time templates). -/
def colonByte : List Nat := utf8 ":"

/-- Function tell_it_what_it_is of src/server.py. The month name is looked
up before the request-type dispatch, exactly as in the source; none models
either a lookup exception or the implicit return None when no branch
matches. Strings are represented by their UTF-8 bytes (the encoding the
caller applies). -/
def tell_it_what_it_is (dt : DateTime) (language : String) (request_type : Nat) :
    Option (List Nat) :=
  match monthTable language with
  | none => none
  | some table =>
    match table.get? (dt.month - 1) with
    | none => none
    | some month =>
      if request_type = REQUEST_DATE ∧ language = "English" then
        some (engDateP1 ++ month ++ spByte ++ decBytes dt.day ++ commaSp ++ decBytes dt.year)
      else if request_type = REQUEST_DATE ∧ language = "Māori" then
        some (maoriDateP1 ++ month ++ spByte ++ decBytes dt.day ++ commaSp ++ decBytes dt.year)
      else if request_type = REQUEST_DATE ∧ language = "German" then
        some (gerDateP1 ++ decBytes dt.day ++ dotSp ++ month ++ spByte ++ decBytes dt.year)
      else if request_type = REQUEST_TIME ∧ language = "English" then
        some (engTimeP1 ++ pad2 dt.hour ++ colonByte ++ pad2 dt.minute)
      else if request_type = REQUEST_TIME ∧ language = "Māori" then
        some (maoriTimeP1 ++ pad2 dt.hour ++ colonByte ++ pad2 dt.minute)
      else if request_type = REQUEST_TIME ∧ language = "German" then
        some (gerTimeP1 ++ pad2 dt.hour ++ colonByte ++ pad2 dt.minute)
      else none

/-- Python int.to_bytes with length 2 and big byte order; none models the
OverflowError raised when the value does not fit. -/
def toBytes2 (n : Nat) : Option (List Nat) :=
  if n < 65536 then some [n / 256, n % 256] else none

/-- Python int.to_bytes with length 1 and big byte order; none models the
OverflowError raised when the value does not fit. -/
def toBytes1 (n : Nat) : Option (List Nat) :=
  if n < 256 then some [n] else none

/-- The lang_code conditional expression of Server.create_response: English
gives 1, Māori gives 2, anything else gives 3. -/
def langCode (language : String) : Nat :=
  if language = "English" then 1 else if language = "Māori" then 2 else 3

/-- Server.create_response of src/server.py: header fields written with
to_bytes in source order, followed by the UTF-8 bytes of the rendered text;
none models any exception during construction (a missing text, which makes
the .encode call raise, or an overflowing to_bytes). -/
def create_response (dt : DateTime) (language : String) (request_type : Nat) :
    Option (List Nat) :=
  match tell_it_what_it_is dt language request_type with
  | none => none
  | some text =>
    (toBytes2 MAGIC_NUM).bind fun m =>
    (toBytes2 0x0002).bind fun pt =>
    (toBytes2 (langCode language)).bind fun lc =>
    (toBytes2 dt.year).bind fun yr =>
    (toBytes1 dt.month).bind fun mo =>
    (toBytes1 dt.day).bind fun da =>
    (toBytes1 dt.hour).bind fun ho =>
    (toBytes1 dt.minute).bind fun mi =>
    (toBytes1 text.length).map fun le =>
      m ++ pt ++ lc ++ yr ++ mo ++ da ++ ho ++ mi ++ le ++ text

/-- Big-endian 16-bit value at offsets 0 and 1 of a request datagram
(the shift-add expression of Server.valid_dt_request). -/
def rqMagic (p : List Nat) : Nat := 256 * p.getD 0 0 + p.getD 1 0

/-- Big-endian 16-bit value at offsets 2 and 3 of a request datagram. -/
def rqPacketType (p : List Nat) : Nat := 256 * p.getD 2 0 + p.getD 3 0

/-- Big-endian 16-bit value at offsets 4 and 5 of a request datagram (the
request type the server extracts, also in Server.waiting_for_request). -/
def rqKind (p : List Nat) : Nat := 256 * p.getD 4 0 + p.getD 5 0

/-- Message printed by the length check of Server.valid_dt_request. -/
def lenMsg : String := "ERROR: Packet length incorrect for a DT_Request, dropping packet"

/-- Message printed by the magic-number check of Server.valid_dt_request. -/
def magicMsg : String := "ERROR: Packet magic number is incorrect, dropping packet"

/-- Message printed by the packet-type check of Server.valid_dt_request. -/
def typeMsg : String := "ERROR: Packet is not a DT_Request, dropping packet"

/-- Message printed by the request-type check of Server.valid_dt_request. -/
def kindMsg : String := "ERROR: Packet has invalid type, dropping packet"

/-- Server.valid_dt_request of src/server.py, refined to return the reason
logged for the first failing check (none when the packet is accepted). The
checks appear in source order and short-circuit. -/
def valid_dt_request_reason (p : List Nat) : Option String :=
  if p.length ≠ 6 then some lenMsg
  else if rqMagic p ≠ MAGIC_NUM then some magicMsg
  else if rqPacketType p ≠ 0x0001 then some typeMsg
  else if ¬(rqKind p = REQUEST_DATE ∨ rqKind p = REQUEST_TIME) then some kindMsg
  else none

/-- Boolean result of Server.valid_dt_request. -/
def valid_dt_request (p : List Nat) : Bool :=
  (valid_dt_request_reason p).isNone

/-- Outcome of handling one inbound datagram in Server.waiting_for_request.
droppedInvalid is the continue after a failed validation (nothing sent, no
exception propagated); sent is a sendto attempt of the given response;
fatal is a sys.exit terminating the whole server process. -/
inductive ServerAction where
  | droppedInvalid
  | sent (response : List Nat)
  | fatal (msg : String)
deriving DecidableEq

/-- Lines 141-142 of src/server.py: the guard applied to a built response
just before the sendto call. -/
def oversize_guard (response : List Nat) : ServerAction :=
  if 255 ≤ response.length then ServerAction.fatal "ERROR: Text too long, dropping packet"
  else ServerAction.sent response

/-- The per-datagram body of Server.waiting_for_request (lines 128-149):
validate, extract the request type, build the response for the language of
the receiving socket, apply the oversize guard, then attempt the send. A
construction exception reaches the outer except clause, which closes the
sockets and calls sys.exit. Socket send errors are outside this model
(they happen after the sent outcome). -/
def handle_datagram (dt : DateTime) (language : String) (data : List Nat) : ServerAction :=
  if valid_dt_request data = true then
    match create_response dt language (rqKind data) with
    | none => ServerAction.fatal "ERROR: unhandled exception"
    | some response => oversize_guard response
  else ServerAction.droppedInvalid

/-- Client.create_and_send_packet packet construction (lines 59-62 of
src/client.py): magic, packet type 1, request type, each via to_bytes. -/
def create_packet (request_type : Nat) : Option (List Nat) :=
  (toBytes2 MAGIC_NUM).bind fun m =>
  (toBytes2 0x0001).bind fun pt =>
  (toBytes2 request_type).map fun rt =>
    m ++ pt ++ rt

/-- Client-side field magic_no: int.from_bytes of bytes 0-1 (big-endian).
Python ints are modelled as Int on the client, where checks against
negative bounds occur. -/
def magicOf (p : List Nat) : Int := 256 * (p.getD 0 0 : Int) + (p.getD 1 0 : Int)

/-- Client-side field packet_type: bytes 2-3. -/
def packetTypeOf (p : List Nat) : Int := 256 * (p.getD 2 0 : Int) + (p.getD 3 0 : Int)

/-- Client-side field language_type: bytes 4-5. -/
def languageTypeOf (p : List Nat) : Int := 256 * (p.getD 4 0 : Int) + (p.getD 5 0 : Int)

/-- Client-side field year: bytes 6-7. -/
def yearOf (p : List Nat) : Int := 256 * (p.getD 6 0 : Int) + (p.getD 7 0 : Int)

/-- Client-side field month: byte 8. -/
def monthOf (p : List Nat) : Int := (p.getD 8 0 : Int)

/-- Client-side field day: byte 9. -/
def dayOf (p : List Nat) : Int := (p.getD 9 0 : Int)

/-- Client-side field hour: byte 10. -/
def hourOf (p : List Nat) : Int := (p.getD 10 0 : Int)

/-- Client-side field minute: byte 11. -/
def minuteOf (p : List Nat) : Int := (p.getD 11 0 : Int)

/-- Client-side field length: byte 12. -/
def lengthFieldOf (p : List Nat) : Int := (p.getD 12 0 : Int)

/-- Client.language_select of src/client.py (dict.get, so none on an
unknown code). -/
def language_select (language_type : Int) : Option String :=
  if language_type = 1 then some "English"
  else if language_type = 2 then some "Māori"
  else if language_type = 3 then some "German"
  else none

/-- The data printed by Client.print_packet_stuff on success: the
language_select value used in the response-received line, the text bytes
(printed after UTF-8 decoding), and the date and time fields. -/
structure Printed where
  languageName : Option String
  text : List Nat
  day : Int
  month : Int
  year : Int
  hour : Int
  minute : Int
deriving DecidableEq

/-- Client.print_packet_stuff of src/client.py: re-extracts the fields,
decodes the text as UTF-8 (exiting on UnicodeDecodeError before anything
is printed), then prints the language line, text line, date line and time
line, represented by the Printed value. -/
def print_packet_stuff (p : List Nat) : Except String Printed :=
  if validUtf8 (p.drop 13) = true then
    Except.ok
      { languageName := language_select (languageTypeOf p)
        text := p.drop 13
        day := dayOf p
        month := monthOf p
        year := yearOf p
        hour := hourOf p
        minute := minuteOf p }
  else Except.error "ERROR: Packet has invalid text"

/-- Client.process_packet of src/client.py: the validation chain in source
order, each failure a sys.exit with the given message, then the handoff to
print_packet_stuff. -/
def process_packet (p : List Nat) : Except String Printed :=
  if p.length < 13 then Except.error "ERROR: Packet is too small to be a DT_Response"
  else if magicOf p ≠ (MAGIC_NUM : Int) then Except.error "ERROR: Packet magic number is incorrect"
  else if packetTypeOf p ≠ 0x0002 then Except.error "ERROR: Packet is not a DT_Response"
  else if ¬(languageTypeOf p = 0x0001 ∨ languageTypeOf p = 0x0002 ∨ languageTypeOf p = 0x0003) then
    Except.error "ERROR: Packet has invalid language"
  else if 2100 < yearOf p then Except.error "ERROR: Packet has invalid year"
  else if monthOf p < 1 ∨ 12 < monthOf p then Except.error "ERROR: Packet has invalid month"
  else if dayOf p < 1 ∨ 31 < dayOf p then Except.error "ERROR: Packet has invalid day"
  else if hourOf p < 0 ∨ 23 < hourOf p then Except.error "ERROR: Packet has invalid hour"
  else if minuteOf p < 0 ∨ 59 < minuteOf p then Except.error "ERROR: Packet has invalid minute"
  else if (p.length : Int) ≠ 13 + lengthFieldOf p then
    Except.error "ERROR: Packet text length is incorrect"
  else print_packet_stuff p

/-- True exactly on the error (sys.exit) outcome of the client decoder. -/
def isErr (r : Except String Printed) : Bool :=
  match r with
  | Except.error _ => true
  | Except.ok _ => false

/-- One line of client terminal output, with the socket address abstracted
away: the request-sent line of Client.create_and_send_packet, the four
lines of Client.print_packet_stuff, or a fatal error message. -/
inductive ClientLine where
  | sentRequest (kind : String)
  | responseReceived (languageName : Option String)
  | textLine (text : List Nat)
  | dateLine (day month year : Int)
  | timeLine (hour minute : Int)
  | errorExit (msg : String)
deriving DecidableEq

/-- Terminal output of one client session after the request was sent and a
datagram was received: the request-kind line printed by
Client.create_and_send_packet, then the outcome of Client.process_packet. -/
def client_run (request_type : Nat) (received_packet : List Nat) : List ClientLine :=
  ClientLine.sentRequest (if request_type = REQUEST_DATE then "Date" else "Time") ::
    match process_packet received_packet with
    | Except.error m => [ClientLine.errorExit m]
    | Except.ok pr =>
      [ClientLine.responseReceived pr.languageName,
       ClientLine.textLine pr.text,
       ClientLine.dateLine pr.day pr.month pr.year,
       ClientLine.timeLine pr.hour pr.minute]

/-- Decimal value of an ASCII digit character, none otherwise. -/
def digitVal (c : Char) : Option Nat :=
  if 48 ≤ c.toNat ∧ c.toNat ≤ 57 then some (c.toNat - 48) else none

/-- Accumulating decimal parse of a digit list. -/
def parseDigitsAux : List Char → Nat → Option Nat
  | [], acc => some acc
  | c :: cs, acc =>
    match digitVal c with
    | none => none
    | some d => parseDigitsAux cs (10 * acc + d)

/-- Nonempty all-digit parse. -/
def parseNat : List Char → Option Nat
  | [] => none
  | c :: cs => parseDigitsAux (c :: cs) 0

/-- Modelled subset of the Python built-in int applied to a string: an
optional sign followed by a nonempty run of decimal digits (leading zeros
allowed); anything else raises ValueError, modelled as none. Surrounding
whitespace and underscore separators, which Python also accepts, are not
modelled. -/
def parsePort (s : String) : Option Int :=
  match s.data with
  | [] => none
  | c :: cs =>
    if c = '-' then (parseNat cs).map (fun n => -(n : Int))
    else if c = '+' then (parseNat cs).map (fun n => (n : Int))
    else (parseNat (c :: cs)).map (fun n => (n : Int))

/-- Outcome of Server.check_port. The error constructors stand for the
sys.exit messages: duplicatePorts for the duplicate-ports error, parseError
and notPositive for the not-a-positive-integer error (raised by the
ValueError handler and by the nonpositive check respectively), notInRange
for the range error. -/
inductive CheckPortResult where
  | ok (ports : List Int)
  | duplicatePorts
  | parseError (arg : String)
  | notPositive (port : Int)
  | notInRange (port : Int)
deriving DecidableEq

/-- The body of the per-port loop of Server.check_port: parse, nonpositive
check, range check, in source order; none when the port passes. -/
def check_one (s : String) : Option CheckPortResult :=
  match parsePort s with
  | none => some (CheckPortResult.parseError s)
  | some n =>
    if n ≤ 0 then some (CheckPortResult.notPositive n)
    else if ¬(1024 ≤ n ∧ n ≤ 64000) then some (CheckPortResult.notInRange n)
    else none

/-- The for loop of Server.check_port, stopping at the first failing port. -/
def check_ports_loop : List String → Option CheckPortResult
  | [] => none
  | s :: rest =>
    match check_one s with
    | some e => some e
    | none => check_ports_loop rest

/-- Server.check_port of src/server.py: the duplicate test compares the
three raw argument strings pairwise before any parsing; only then is each
argument parsed and range-checked; on success the ports are the parsed
integers. -/
def check_port (p0 p1 p2 : String) : CheckPortResult :=
  if p0 = p1 ∨ p0 = p2 ∨ p1 = p2 then CheckPortResult.duplicatePorts
  else
    match check_ports_loop [p0, p1, p2] with
    | some e => e
    | none => CheckPortResult.ok ([p0, p1, p2].map (fun s => (parsePort s).getD 0))

example : check_port "5000" "05000" "6000" = CheckPortResult.ok [5000, 5000, 6000] := by decide
example : check_port "5000" "5000" "6000" = CheckPortResult.duplicatePorts := by decide
example : check_port "abc" "5000" "6000" = CheckPortResult.parseError "abc" := by decide
example : check_port "-5" "5000" "6000" = CheckPortResult.notPositive (-5) := by decide
example : check_port "70000" "5000" "6000" = CheckPortResult.notInRange 70000 := by decide

lemma utf8Run_append (a : List Nat) : ∀ (b : List Nat) (st : Utf8State),
    utf8Run st (a ++ b) =
      match utf8Run st a with
      | none => none
      | some st2 => utf8Run st2 b := by
  induction a with
  | nil => intro b st; rfl
  | cons x xs ih =>
    intro b st
    simp only [List.cons_append, utf8Run]
    cases utf8Step st x with
    | none => rfl
    | some st2 => exact ih b st2

lemma utf8Step_of_pending0 (st : Utf8State) (b : Nat) (h : st.pending = 0) :
    utf8Step st b = utf8Step ⟨0, 0, 0⟩ b := by
  simp [utf8Step, h]

lemma validFrom_of_pending0 (st : Utf8State) (l : List Nat) (h : st.pending = 0) :
    validFrom st l = validUtf8 l := by
  cases l with
  | nil => simp [validFrom, validUtf8, utf8Run, h]
  | cons b rest =>
    simp only [validUtf8, validFrom, utf8Run, utf8Step_of_pending0 st b h]

lemma validUtf8_append (a b : List Nat) (ha : validUtf8 a = true)
    (hb : validUtf8 b = true) : validUtf8 (a ++ b) = true := by
  unfold validUtf8 validFrom at *
  rw [utf8Run_append]
  cases hrun : utf8Run ⟨0, 0, 0⟩ a with
  | none => rw [hrun] at ha; exact absurd ha (by simp)
  | some st =>
    rw [hrun] at ha
    have hp : st.pending = 0 := by simpa using ha
    have := validFrom_of_pending0 st b hp
    unfold validFrom validUtf8 at this
    rw [this]
    exact hb

lemma validUtf8_ascii (l : List Nat) (h : ∀ b ∈ l, b ≤ 127) : validUtf8 l = true := by
  induction l with
  | nil => rfl
  | cons b rest ih =>
    have hb : b ≤ 127 := h b (by simp)
    unfold validUtf8 validFrom utf8Run
    rw [show utf8Step ⟨0, 0, 0⟩ b = some ⟨0, 0, 0⟩ by simp [utf8Step, hb]]
    exact ih (fun x hx => h x (by simp [hx]))

lemma decBytes_ascii (n : Nat) : ∀ b ∈ decBytes n, b ≤ 127 := by
  intro b hb
  unfold decBytes at hb
  by_cases h : n = 0
  · simp [h] at hb; omega
  · simp only [h, if_false, List.mem_map, List.mem_reverse] at hb
    obtain ⟨d, hd, rfl⟩ := hb
    have : d < 10 := Nat.digits_lt_base (by norm_num) hd
    omega

lemma decBytes_valid (n : Nat) : validUtf8 (decBytes n) = true :=
  validUtf8_ascii _ (decBytes_ascii n)

lemma decBytes_len_le (n k : Nat) (h : n < 10 ^ k) (hk : 1 ≤ k) :
    (decBytes n).length ≤ k := by
  unfold decBytes
  by_cases h0 : n = 0
  · simp [h0]; omega
  · simp only [h0, if_false, List.length_map, List.length_reverse]
    rw [Nat.digits_len 10 n (by norm_num) h0]
    have := Nat.log_lt_of_lt_pow h0 h
    omega

lemma pad2_ascii (n : Nat) : ∀ b ∈ pad2 n, b ≤ 127 := by
  intro b hb
  unfold pad2 at hb
  by_cases h : n < 10
  · simp [h] at hb; omega
  · simp only [h, if_false] at hb
    exact decBytes_ascii n b hb

lemma pad2_valid (n : Nat) : validUtf8 (pad2 n) = true :=
  validUtf8_ascii _ (pad2_ascii n)

lemma pad2_len_le (n : Nat) (h : n ≤ 99) : (pad2 n).length ≤ 2 := by
  unfold pad2
  by_cases h10 : n < 10
  · simp [h10]
  · simp only [h10, if_false]
    exact decBytes_len_le n 2 (by omega) (by omega)

lemma englishMonths_facts : ∀ mn ∈ englishMonths, validUtf8 mn = true ∧ mn.length ≤ 20 := by
  decide

lemma maoriMonths_facts : ∀ mn ∈ maoriMonths, validUtf8 mn = true ∧ mn.length ≤ 20 := by
  decide

lemma germanMonths_facts : ∀ mn ∈ germanMonths, validUtf8 mn = true ∧ mn.length ≤ 20 := by
  decide

lemma piece_facts :
    validUtf8 engDateP1 = true ∧ engDateP1.length ≤ 30 ∧
    validUtf8 maoriDateP1 = true ∧ maoriDateP1.length ≤ 30 ∧
    validUtf8 gerDateP1 = true ∧ gerDateP1.length ≤ 30 ∧
    validUtf8 engTimeP1 = true ∧ engTimeP1.length ≤ 30 ∧
    validUtf8 maoriTimeP1 = true ∧ maoriTimeP1.length ≤ 30 ∧
    validUtf8 gerTimeP1 = true ∧ gerTimeP1.length ≤ 30 ∧
    validUtf8 spByte = true ∧ spByte.length = 1 ∧
    validUtf8 commaSp = true ∧ commaSp.length = 2 ∧
    validUtf8 dotSp = true ∧ dotSp.length = 2 ∧
    validUtf8 colonByte = true ∧ colonByte.length = 1 := by
  decide


lemma month_lookup (table : List (List Nat)) (m : Nat) (h12 : table.length = 12)
    (hm1 : 1 ≤ m) (hm2 : m ≤ 12) :
    ∃ mn, table.get? (m - 1) = some mn ∧ mn ∈ table := by
  have hlt : m - 1 < table.length := by omega
  exact ⟨table.get ⟨m - 1, hlt⟩, List.get?_eq_get hlt, table.get_mem _ hlt⟩

lemma tell_spec (dt : DateTime) (language : String) (rt : Nat)
    (hdt : validDateTime dt)
    (hl : language = "English" ∨ language = "Māori" ∨ language = "German")
    (hr : rt = REQUEST_DATE ∨ rt = REQUEST_TIME) :
    ∃ text, tell_it_what_it_is dt language rt = some text ∧
      text.length ≤ 255 ∧ validUtf8 text = true := by
  obtain ⟨h1, h2, h3, h4, h5, h6, h7, h8⟩ := hdt
  have hday : (decBytes dt.day).length ≤ 2 := decBytes_len_le _ 2 (by omega) (by omega)
  have hyear : (decBytes dt.year).length ≤ 4 := decBytes_len_le _ 4 (by omega) (by omega)
  have hhour : (pad2 dt.hour).length ≤ 2 := pad2_len_le _ (by omega)
  have hmin : (pad2 dt.minute).length ≤ 2 := pad2_len_le _ (by omega)
  obtain ⟨pf1, pf2, pf3, pf4, pf5, pf6, pf7, pf8, pf9, pf10, pf11, pf12,
    pf13, pf14, pf15, pf16, pf17, pf18, pf19, pf20⟩ := piece_facts
  rcases hl with rfl | rfl | rfl
  · obtain ⟨mn, hget, hmem⟩ := month_lookup englishMonths dt.month (by decide) h3 h4
    obtain ⟨hmnv, hmnl⟩ := englishMonths_facts mn hmem
    rcases hr with rfl | rfl
    · have heq : tell_it_what_it_is dt "English" REQUEST_DATE =
          some (engDateP1 ++ mn ++ spByte ++ decBytes dt.day ++ commaSp ++ decBytes dt.year) := by
        simp [tell_it_what_it_is, monthTable, ← List.get?_eq_getElem?, hget, REQUEST_DATE, REQUEST_TIME]
      refine ⟨_, heq, ?_, ?_⟩
      · simp only [List.length_append]; omega
      · repeat' apply validUtf8_append
        all_goals first
          | exact hmnv | exact decBytes_valid _ | exact pad2_valid _ | assumption
    · have heq : tell_it_what_it_is dt "English" REQUEST_TIME =
          some (engTimeP1 ++ pad2 dt.hour ++ colonByte ++ pad2 dt.minute) := by
        simp [tell_it_what_it_is, monthTable, ← List.get?_eq_getElem?, hget, REQUEST_DATE, REQUEST_TIME]
      refine ⟨_, heq, ?_, ?_⟩
      · simp only [List.length_append]; omega
      · repeat' apply validUtf8_append
        all_goals first
          | exact hmnv | exact decBytes_valid _ | exact pad2_valid _ | assumption
  · obtain ⟨mn, hget, hmem⟩ := month_lookup maoriMonths dt.month (by decide) h3 h4
    obtain ⟨hmnv, hmnl⟩ := maoriMonths_facts mn hmem
    rcases hr with rfl | rfl
    · have heq : tell_it_what_it_is dt "Māori" REQUEST_DATE =
          some (maoriDateP1 ++ mn ++ spByte ++ decBytes dt.day ++ commaSp ++ decBytes dt.year) := by
        simp [tell_it_what_it_is, monthTable, ← List.get?_eq_getElem?, hget, REQUEST_DATE, REQUEST_TIME]
      refine ⟨_, heq, ?_, ?_⟩
      · simp only [List.length_append]; omega
      · repeat' apply validUtf8_append
        all_goals first
          | exact hmnv | exact decBytes_valid _ | exact pad2_valid _ | assumption
    · have heq : tell_it_what_it_is dt "Māori" REQUEST_TIME =
          some (maoriTimeP1 ++ pad2 dt.hour ++ colonByte ++ pad2 dt.minute) := by
        simp [tell_it_what_it_is, monthTable, ← List.get?_eq_getElem?, hget, REQUEST_DATE, REQUEST_TIME]
      refine ⟨_, heq, ?_, ?_⟩
      · simp only [List.length_append]; omega
      · repeat' apply validUtf8_append
        all_goals first
          | exact hmnv | exact decBytes_valid _ | exact pad2_valid _ | assumption
  · obtain ⟨mn, hget, hmem⟩ := month_lookup germanMonths dt.month (by decide) h3 h4
    obtain ⟨hmnv, hmnl⟩ := germanMonths_facts mn hmem
    rcases hr with rfl | rfl
    · have heq : tell_it_what_it_is dt "German" REQUEST_DATE =
          some (gerDateP1 ++ decBytes dt.day ++ dotSp ++ mn ++ spByte ++ decBytes dt.year) := by
        simp [tell_it_what_it_is, monthTable, ← List.get?_eq_getElem?, hget, REQUEST_DATE, REQUEST_TIME]
      refine ⟨_, heq, ?_, ?_⟩
      · simp only [List.length_append]; omega
      · repeat' apply validUtf8_append
        all_goals first
          | exact hmnv | exact decBytes_valid _ | exact pad2_valid _ | assumption
    · have heq : tell_it_what_it_is dt "German" REQUEST_TIME =
          some (gerTimeP1 ++ pad2 dt.hour ++ colonByte ++ pad2 dt.minute) := by
        simp [tell_it_what_it_is, monthTable, ← List.get?_eq_getElem?, hget, REQUEST_DATE, REQUEST_TIME]
      refine ⟨_, heq, ?_, ?_⟩
      · simp only [List.length_append]; omega
      · repeat' apply validUtf8_append
        all_goals first
          | exact hmnv | exact decBytes_valid _ | exact pad2_valid _ | assumption

lemma langCode_le_3 (language : String) : langCode language ≤ 3 := by
  unfold langCode; split_ifs <;> omega

lemma create_response_spec (dt : DateTime) (language : String) (rt : Nat)
    (hdt : validDateTime dt)
    (hl : language = "English" ∨ language = "Māori" ∨ language = "German")
    (hr : rt = REQUEST_DATE ∨ rt = REQUEST_TIME) :
    ∃ text, tell_it_what_it_is dt language rt = some text ∧
      text.length ≤ 255 ∧ validUtf8 text = true ∧
      create_response dt language rt =
        some (54 :: 251 :: 0 :: 2 :: 0 :: langCode language :: dt.year / 256 :: dt.year % 256 ::
          dt.month :: dt.day :: dt.hour :: dt.minute :: text.length :: text) := by
  obtain ⟨text, ht, hlen, hv⟩ := tell_spec dt language rt hdt hl hr
  obtain ⟨g1, g2, g3, g4, g5, g6, g7, g8⟩ := hdt
  have hlc3 : langCode language ≤ 3 := langCode_le_3 language
  refine ⟨text, ht, hlen, hv, ?_⟩
  have t1 : toBytes2 MAGIC_NUM = some [54, 251] := by decide
  have t2 : toBytes2 0x0002 = some [0, 2] := by decide
  have t3 : toBytes2 (langCode language) = some [0, langCode language] := by
    unfold toBytes2
    rw [if_pos (by omega)]
    rw [Nat.div_eq_of_lt (by omega), Nat.mod_eq_of_lt (by omega)]
  have t4 : toBytes2 dt.year = some [dt.year / 256, dt.year % 256] := by
    unfold toBytes2; rw [if_pos (by omega)]
  have t5 : toBytes1 dt.month = some [dt.month] := by
    unfold toBytes1; rw [if_pos (by omega)]
  have t6 : toBytes1 dt.day = some [dt.day] := by
    unfold toBytes1; rw [if_pos (by omega)]
  have t7 : toBytes1 dt.hour = some [dt.hour] := by
    unfold toBytes1; rw [if_pos (by omega)]
  have t8 : toBytes1 dt.minute = some [dt.minute] := by
    unfold toBytes1; rw [if_pos (by omega)]
  have t9 : toBytes1 text.length = some [text.length] := by
    unfold toBytes1; rw [if_pos (by omega)]
  unfold create_response
  rw [ht, t1, t2, t3, t4, t5, t6, t7, t8]
  simp [t9]

lemma valid_dt_request_iff (p : List Nat) :
    valid_dt_request p = true ↔
      (p.length = 6 ∧ rqMagic p = MAGIC_NUM ∧ rqPacketType p = 0x0001 ∧
        (rqKind p = REQUEST_DATE ∨ rqKind p = REQUEST_TIME)) := by
  unfold valid_dt_request valid_dt_request_reason
  split_ifs with h1 h2 h3 h4 <;> simp_all

lemma process_packet_isErr_iff (p : List Nat) :
    isErr (process_packet p) = true ↔
      (p.length < 13 ∨ magicOf p ≠ (MAGIC_NUM : Int) ∨ packetTypeOf p ≠ 0x0002 ∨
        ¬(languageTypeOf p = 0x0001 ∨ languageTypeOf p = 0x0002 ∨ languageTypeOf p = 0x0003) ∨
        2100 < yearOf p ∨ (monthOf p < 1 ∨ 12 < monthOf p) ∨ (dayOf p < 1 ∨ 31 < dayOf p) ∨
        (hourOf p < 0 ∨ 23 < hourOf p) ∨ (minuteOf p < 0 ∨ 59 < minuteOf p) ∨
        (p.length : Int) ≠ 13 + lengthFieldOf p ∨ validUtf8 (p.drop 13) ≠ true) := by
  by_cases h1 : p.length < 13
  · simp [process_packet, print_packet_stuff, isErr, h1]
  · by_cases h2 : magicOf p ≠ (MAGIC_NUM : Int)
    · simp [process_packet, print_packet_stuff, isErr, h1, h2]
    · by_cases h3 : packetTypeOf p ≠ 0x0002
      · simp [process_packet, print_packet_stuff, isErr, h1, h2, h3]
      · by_cases h4 : ¬(languageTypeOf p = 0x0001 ∨ languageTypeOf p = 0x0002 ∨
            languageTypeOf p = 0x0003)
        · simp [process_packet, print_packet_stuff, isErr, h1, h2, h3, h4]
        · by_cases h5 : 2100 < yearOf p
          · simp [process_packet, print_packet_stuff, isErr, h1, h2, h3, h4, h5]
          · by_cases h6 : monthOf p < 1 ∨ 12 < monthOf p
            · simp [process_packet, print_packet_stuff, isErr, h1, h2, h3, h4, h5, h6]
            · by_cases h7 : dayOf p < 1 ∨ 31 < dayOf p
              · simp [process_packet, print_packet_stuff, isErr, h1, h2, h3, h4, h5, h6, h7]
              · by_cases h8 : hourOf p < 0 ∨ 23 < hourOf p
                · simp [process_packet, print_packet_stuff, isErr, h1, h2, h3, h4, h5, h6, h7, h8]
                · by_cases h9 : minuteOf p < 0 ∨ 59 < minuteOf p
                  · simp [process_packet, print_packet_stuff, isErr,
                      h1, h2, h3, h4, h5, h6, h7, h8, h9]
                  · by_cases h10 : (p.length : Int) ≠ 13 + lengthFieldOf p
                    · simp [process_packet, print_packet_stuff, isErr,
                        h1, h2, h3, h4, h5, h6, h7, h8, h9, h10]
                    · by_cases h11 : validUtf8 (p.drop 13) = true
                      · simp [process_packet, print_packet_stuff, isErr,
                          h1, h2, h3, h4, h5, h6, h7, h8, h9, h10, h11]
                      · simp [process_packet, print_packet_stuff, isErr,
                          h1, h2, h3, h4, h5, h6, h7, h8, h9, h10, h11]

lemma process_packet_ok_inv (p : List Nat) (out : Printed)
    (h : process_packet p = Except.ok out) :
    out = ⟨language_select (languageTypeOf p), p.drop 13, dayOf p, monthOf p, yearOf p,
      hourOf p, minuteOf p⟩ ∧
    (languageTypeOf p = 0x0001 ∨ languageTypeOf p = 0x0002 ∨ languageTypeOf p = 0x0003) ∧
    validUtf8 (p.drop 13) = true ∧ 13 ≤ p.length := by
  by_cases h1 : p.length < 13
  · simp [process_packet, h1] at h
  · by_cases h2 : magicOf p ≠ (MAGIC_NUM : Int)
    · simp [process_packet, h1, h2] at h
    · by_cases h3 : packetTypeOf p ≠ 0x0002
      · simp [process_packet, h1, h2, h3] at h
      · by_cases h4 : ¬(languageTypeOf p = 0x0001 ∨ languageTypeOf p = 0x0002 ∨
            languageTypeOf p = 0x0003)
        · simp [process_packet, h1, h2, h3, h4] at h
        · by_cases h5 : 2100 < yearOf p
          · simp [process_packet, h1, h2, h3, h4, h5] at h
          · by_cases h6 : monthOf p < 1 ∨ 12 < monthOf p
            · simp [process_packet, h1, h2, h3, h4, h5, h6] at h
            · by_cases h7 : dayOf p < 1 ∨ 31 < dayOf p
              · simp [process_packet, h1, h2, h3, h4, h5, h6, h7] at h
              · by_cases h8 : hourOf p < 0 ∨ 23 < hourOf p
                · simp [process_packet, h1, h2, h3, h4, h5, h6, h7, h8] at h
                · by_cases h9 : minuteOf p < 0 ∨ 59 < minuteOf p
                  · simp [process_packet, h1, h2, h3, h4, h5, h6, h7, h8, h9] at h
                  · by_cases h10 : (p.length : Int) ≠ 13 + lengthFieldOf p
                    · simp [process_packet, h1, h2, h3, h4, h5, h6, h7, h8, h9, h10] at h
                    · by_cases h11 : validUtf8 (p.drop 13) = true
                      · simp [process_packet, print_packet_stuff,
                          h1, h2, h3, h4, h5, h6, h7, h8, h9, h10, h11] at h
                        push_neg at h4
                        exact ⟨h.symm, h4, h11, by omega⟩
                      · simp [process_packet, print_packet_stuff,
                          h1, h2, h3, h4, h5, h6, h7, h8, h9, h10, h11] at h

lemma getD_mem (p : List Nat) : ∀ n, n < p.length → p.getD n 0 ∈ p := by
  induction p with
  | nil => intro n h; simp at h
  | cons a l ih =>
    intro n h
    cases n with
    | zero => simp [List.getD]
    | succ m =>
      simp only [List.getD_cons_succ]
      exact List.mem_cons_of_mem _ (ih m (by simpa using h))

lemma check_one_none_iff (s : String) :
    check_one s = none ↔ ∃ n : Int, parsePort s = some n ∧ 1024 ≤ n ∧ n ≤ 64000 := by
  unfold check_one
  cases h : parsePort s with
  | none => simp
  | some n =>
    simp only []
    split_ifs with h1 h2
    · simp
      intro hm
      omega
    · simp
      exact h2
    · simp
      intro hm
      omega

lemma check_ports_loop_none_iff (l : List String) :
    check_ports_loop l = none ↔ ∀ s ∈ l, check_one s = none := by
  induction l with
  | nil => simp [check_ports_loop]
  | cons s rest ih =>
    unfold check_ports_loop
    cases h : check_one s with
    | some e => simp [h]
    | none => simp [h, ih]

lemma check_one_not_ok (s : String) (e : CheckPortResult) (ps : List Int)
    (h : check_one s = some e) : e ≠ CheckPortResult.ok ps := by
  intro hcontra
  subst hcontra
  unfold check_one at h
  cases hp : parsePort s with
  | none => rw [hp] at h; exact absurd h (by simp)
  | some n => rw [hp] at h; simp only [] at h; split_ifs at h <;> simp_all

lemma check_ports_loop_not_ok : ∀ (l : List String) (e : CheckPortResult) (ps : List Int),
    check_ports_loop l = some e → e ≠ CheckPortResult.ok ps := by
  intro l
  induction l with
  | nil => intro e ps h; simp [check_ports_loop] at h
  | cons s rest ih =>
    intro e ps h
    unfold check_ports_loop at h
    cases hc : check_one s with
    | some e2 =>
      rw [hc] at h
      simp only [Option.some.injEq] at h
      subst h
      exact check_one_not_ok s e2 ps hc
    | none =>
      rw [hc] at h
      exact ih e ps h

set_option maxRecDepth 4000 in
/-- Claim C1: the spec states that a built response of total length at
least 255 bytes is never sent, is logged, and is dropped with the dispatch
loop continuing (recoverable). The code never sends it and logs it, but
the guard in Server.waiting_for_request calls sys.exit: evaluating it at a
255-byte response yields the fatal process-terminating outcome, not a
drop that lets the loop continue. -/
theorem claim_C1_oversize_guard_is_fatal :
    oversize_guard (List.replicate 255 0) =
      ServerAction.fatal "ERROR: Text too long, dropping packet" ∧
    (List.replicate 255 0).length = 255 ∧
    ∀ r : List Nat, oversize_guard r ≠ ServerAction.droppedInvalid := by
  refine ⟨?_, by simp, ?_⟩
  · unfold oversize_guard
    rw [if_pos (by simp)]
  · intro r
    unfold oversize_guard
    split_ifs <;> simp

/-- Claim C2 counterexample: the arguments 5000 and 05000 denote the same
integer port value 5000, yet Server.check_port raises no duplicate-port
error and validates the triple successfully, so startup proceeds to
socket binding. -/
theorem claim_C2_counterexample :
    parsePort "5000" = some 5000 ∧ parsePort "05000" = some 5000 ∧
    check_port "5000" "05000" "6000" = CheckPortResult.ok [5000, 5000, 6000] := by
  refine ⟨by decide, by decide, by decide⟩

/-- Claim C2 (amended): the duplicate test of Server.check_port is string
equality of the raw arguments: if any two of the three port argument
strings are equal, startup fails with the duplicate-port error before any
socket is bound; otherwise validation succeeds exactly when every argument
parses as an integer in the range 1024 to 64000, any violation being
fatal. -/
theorem claim_C2_amended_duplicates_by_string (a b c : String) :
    ((a = b ∨ a = c ∨ b = c) → check_port a b c = CheckPortResult.duplicatePorts) ∧
    (¬(a = b ∨ a = c ∨ b = c) →
      ((∃ ps, check_port a b c = CheckPortResult.ok ps) ↔
        ∀ s ∈ [a, b, c], ∃ n : Int, parsePort s = some n ∧ 1024 ≤ n ∧ n ≤ 64000)) := by
  constructor
  · intro hd
    unfold check_port
    rw [if_pos hd]
  · intro hd
    unfold check_port
    rw [if_neg hd]
    constructor
    · rintro ⟨ps, hps⟩
      cases hl : check_ports_loop [a, b, c] with
      | some e =>
        rw [hl] at hps
        exact absurd hps (check_ports_loop_not_ok [a, b, c] e ps hl)
      | none =>
        intro s hs
        exact (check_one_none_iff s).mp ((check_ports_loop_none_iff [a, b, c]).mp hl s hs)
    · intro hall
      have hl : check_ports_loop [a, b, c] = none :=
        (check_ports_loop_none_iff [a, b, c]).mpr
          (fun s hs => (check_one_none_iff s).mpr (hall s hs))
      exact ⟨_, by rw [hl]⟩

/-- Witness for the amended claim C2 at two equal argument strings. -/
theorem claim_C2_amended_witness :
    check_port "7777" "7777" "8888" = CheckPortResult.duplicatePorts :=
  (claim_C2_amended_duplicates_by_string "7777" "7777" "8888").1 (Or.inl rfl)

/-- Claim C4: Server.valid_dt_request accepts exactly the 6-byte datagrams
with the right magic, packet type 1 and request kind 1 or 2; the four
checks run in that fixed order and short-circuit on the first failure
(witnessed by which reason is logged); and a failed validation makes the
dispatcher silently drop the datagram (continue), sending no response and
raising nothing. -/
theorem claim_C4_request_validator (dt : DateTime) (language : String) (p : List Nat) :
    (valid_dt_request p = true ↔
      (p.length = 6 ∧ rqMagic p = MAGIC_NUM ∧ rqPacketType p = 0x0001 ∧
        (rqKind p = REQUEST_DATE ∨ rqKind p = REQUEST_TIME))) ∧
    (valid_dt_request_reason p = some lenMsg ↔ p.length ≠ 6) ∧
    (valid_dt_request_reason p = some magicMsg ↔
      (p.length = 6 ∧ rqMagic p ≠ MAGIC_NUM)) ∧
    (valid_dt_request_reason p = some typeMsg ↔
      (p.length = 6 ∧ rqMagic p = MAGIC_NUM ∧ rqPacketType p ≠ 0x0001)) ∧
    (valid_dt_request_reason p = some kindMsg ↔
      (p.length = 6 ∧ rqMagic p = MAGIC_NUM ∧ rqPacketType p = 0x0001 ∧
        ¬(rqKind p = REQUEST_DATE ∨ rqKind p = REQUEST_TIME))) ∧
    (handle_datagram dt language p = ServerAction.droppedInvalid ↔
      valid_dt_request p = false) := by
  refine ⟨valid_dt_request_iff p, ?_, ?_, ?_, ?_, ?_⟩
  · unfold valid_dt_request_reason
    split_ifs with h1 h2 h3 h4 <;> simp_all [lenMsg, magicMsg, typeMsg, kindMsg]
  · unfold valid_dt_request_reason
    split_ifs with h1 h2 h3 h4 <;> simp_all [lenMsg, magicMsg, typeMsg, kindMsg]
  · unfold valid_dt_request_reason
    split_ifs with h1 h2 h3 h4 <;> simp_all [lenMsg, magicMsg, typeMsg, kindMsg]
  · unfold valid_dt_request_reason
    split_ifs with h1 h2 h3 h4 <;> simp_all [lenMsg, magicMsg, typeMsg, kindMsg]
  · unfold handle_datagram oversize_guard
    cases hv : valid_dt_request p with
    | false => simp
    | true =>
      cases hc : create_response dt language (rqKind p) with
      | none => simp [hc]
      | some r =>
        simp only [hc]
        by_cases hr : 255 ≤ r.length
        · simp [hr]
        · simp [hr]

/-- Claim C5: the client decoder rejects a received packet (exits with an
error before printing anything of it) exactly when the packet is shorter
than 13 bytes, or the magic number, packet type, language code, year,
month, day, hour, minute or total-length-versus-textLength check fails,
or the text bytes are not valid UTF-8. -/
theorem claim_C5_decoder_rejects_iff (p : List Nat) :
    isErr (process_packet p) = true ↔
      (p.length < 13 ∨ magicOf p ≠ (MAGIC_NUM : Int) ∨ packetTypeOf p ≠ 0x0002 ∨
        ¬(languageTypeOf p = 0x0001 ∨ languageTypeOf p = 0x0002 ∨ languageTypeOf p = 0x0003) ∨
        2100 < yearOf p ∨ (monthOf p < 1 ∨ 12 < monthOf p) ∨ (dayOf p < 1 ∨ 31 < dayOf p) ∨
        (hourOf p < 0 ∨ 23 < hourOf p) ∨ (minuteOf p < 0 ∨ 59 < minuteOf p) ∨
        (p.length : Int) ≠ 13 + lengthFieldOf p ∨ validUtf8 (p.drop 13) ≠ true) :=
  process_packet_isErr_iff p

/-- Claim C6: for each request kind (date 1, time 2), the 6-byte packet
the client encoder produces is accepted by the server request validator,
and the request kind the server extracts from it is the original one. -/
theorem claim_C6_request_roundtrip (rt : Nat)
    (h : rt = REQUEST_DATE ∨ rt = REQUEST_TIME) :
    create_packet rt = some [54, 251, 0, 1, 0, rt] ∧
    valid_dt_request [54, 251, 0, 1, 0, rt] = true ∧
    rqKind [54, 251, 0, 1, 0, rt] = rt := by
  rcases h with rfl | rfl <;> exact ⟨by decide, by decide, by decide⟩

/-- Witness for claim C6 at the time request kind. -/
theorem claim_C6_witness :
    create_packet REQUEST_TIME = some [54, 251, 0, 1, 0, REQUEST_TIME] ∧
    valid_dt_request [54, 251, 0, 1, 0, REQUEST_TIME] = true ∧
    rqKind [54, 251, 0, 1, 0, REQUEST_TIME] = REQUEST_TIME :=
  claim_C6_request_roundtrip REQUEST_TIME (Or.inr rfl)

/-- Claim C3: whenever Client.process_packet accepts a received packet
(all checks pass and the text is valid UTF-8), the session completes and
the terminal output consists of the request-kind line printed at send
time followed by the language line, the text line, and the date and time
lines, carrying the decoded values; the language name printed is an
actual table entry (language_select succeeds). -/
theorem claim_C3_completed_prints (rt : Nat) (p : List Nat) (out : Printed)
    (hrt : rt = REQUEST_DATE ∨ rt = REQUEST_TIME)
    (h : process_packet p = Except.ok out) :
    out.languageName.isSome = true ∧
    client_run rt p =
      [ClientLine.sentRequest (if rt = REQUEST_DATE then "Date" else "Time"),
       ClientLine.responseReceived (language_select (languageTypeOf p)),
       ClientLine.textLine (p.drop 13),
       ClientLine.dateLine (dayOf p) (monthOf p) (yearOf p),
       ClientLine.timeLine (hourOf p) (minuteOf p)] := by
  obtain ⟨hout, hlang, hv, hlen⟩ := process_packet_ok_inv p out h
  subst hout
  constructor
  · rcases hlang with h1 | h1 | h1 <;> simp [language_select, h1]
  · simp [client_run, h]

/-- Witness for claim C3 on a concrete well-formed response packet. -/
theorem claim_C3_witness :
    client_run REQUEST_DATE [54, 251, 0, 2, 0, 1, 7, 229, 5, 7, 3, 9, 2, 72, 105] =
      [ClientLine.sentRequest "Date",
       ClientLine.responseReceived (some "English"),
       ClientLine.textLine [72, 105],
       ClientLine.dateLine 7 5 2021,
       ClientLine.timeLine 3 9] := by
  have h := claim_C3_completed_prints REQUEST_DATE
    [54, 251, 0, 2, 0, 1, 7, 229, 5, 7, 3, 9, 2, 72, 105]
    ⟨some "English", [72, 105], 7, 5, 2021, 3, 9⟩ (Or.inl rfl) (by rfl)
  rw [h.2]
  rfl

/-- Claim C7: for each of the three languages, each request kind, and any
timestamp a datetime value can carry, Server.create_response succeeds, its
textLength byte (offset 12) equals the UTF-8 byte length of the rendered
text, and the total packet length is 13 plus that byte length. -/
theorem claim_C7_length_consistency (dt : DateTime) (language : String) (rt : Nat)
    (hdt : validDateTime dt)
    (hl : language = "English" ∨ language = "Māori" ∨ language = "German")
    (hr : rt = REQUEST_DATE ∨ rt = REQUEST_TIME) :
    (tell_it_what_it_is dt language rt).isSome = true ∧
    (create_response dt language rt).isSome = true ∧
    ((create_response dt language rt).getD []).getD 12 0 =
      ((tell_it_what_it_is dt language rt).getD []).length ∧
    ((create_response dt language rt).getD []).length =
      13 + ((tell_it_what_it_is dt language rt).getD []).length := by
  obtain ⟨text, ht, hlen, hv, hcr⟩ := create_response_spec dt language rt hdt hl hr
  rw [ht, hcr]
  refine ⟨rfl, rfl, ?_, ?_⟩
  · simp [List.getD]
  · simp
    omega

/-- Witness for claim C7 at an English date request on 7 May 2024. -/
theorem claim_C7_witness :
    (tell_it_what_it_is ⟨2024, 5, 7, 3, 9⟩ "English" REQUEST_DATE).isSome = true ∧
    (create_response ⟨2024, 5, 7, 3, 9⟩ "English" REQUEST_DATE).isSome = true ∧
    ((create_response ⟨2024, 5, 7, 3, 9⟩ "English" REQUEST_DATE).getD []).getD 12 0 =
      ((tell_it_what_it_is ⟨2024, 5, 7, 3, 9⟩ "English" REQUEST_DATE).getD []).length ∧
    ((create_response ⟨2024, 5, 7, 3, 9⟩ "English" REQUEST_DATE).getD []).length =
      13 + ((tell_it_what_it_is ⟨2024, 5, 7, 3, 9⟩ "English" REQUEST_DATE).getD []).length :=
  claim_C7_length_consistency ⟨2024, 5, 7, 3, 9⟩ "English" REQUEST_DATE
    (by decide) (Or.inl rfl) (Or.inl rfl)

/-- Claim C9: under the preconditions that the datagram passed the request
validator (so the extracted request kind is 1 or 2) and that the language
of the receiving socket is one of the three supported ones, the localized
text function returns an actual string (never the missing-case None), and
response construction succeeds (the .encode call never sees None). -/
theorem claim_C9_text_never_none (data : List Nat) (language : String) (dt : DateTime)
    (hvalid : valid_dt_request data = true)
    (hl : language = "English" ∨ language = "Māori" ∨ language = "German")
    (hdt : validDateTime dt) :
    (tell_it_what_it_is dt language (rqKind data)).isSome = true ∧
    (create_response dt language (rqKind data)).isSome = true := by
  have hk : rqKind data = REQUEST_DATE ∨ rqKind data = REQUEST_TIME :=
    ((valid_dt_request_iff data).mp hvalid).2.2.2
  obtain ⟨text, ht, hlen, hv, hcr⟩ := create_response_spec dt language _ hdt hl hk
  rw [ht, hcr]
  exact ⟨rfl, rfl⟩

/-- Witness for claim C9 at a valid date request on a German socket. -/
theorem claim_C9_witness :
    (tell_it_what_it_is ⟨2021, 1, 1, 0, 0⟩ "German" (rqKind [54, 251, 0, 1, 0, 1])).isSome
      = true ∧
    (create_response ⟨2021, 1, 1, 0, 0⟩ "German" (rqKind [54, 251, 0, 1, 0, 1])).isSome
      = true :=
  claim_C9_text_never_none [54, 251, 0, 1, 0, 1] "German" ⟨2021, 1, 1, 0, 0⟩
    (by decide) (Or.inr (Or.inr rfl)) (by decide)

/-- Response bytes the server sends for a given timestamp, language and
request kind (empty when construction fails); the getD projection of
Server.create_response used to state the encode/decode round trip. -/
def builtResponse (dt : DateTime) (language : String) (rt : Nat) : List Nat :=
  (create_response dt language rt).getD []

/-- Claim C8: for every datetime timestamp with year at most 2100 and
every pair from the fixed three-language, two-kind table, the packet built
by Server.create_response passes every check of Client.process_packet
(no rejection branch is taken), and the language code, year, month, day,
hour and minute the client derives equal those of the input. -/
theorem claim_C8_encode_decode_roundtrip (dt : DateTime) (language : String) (rt : Nat)
    (hdt : validDateTime dt) (hy : dt.year ≤ 2100)
    (hl : language = "English" ∨ language = "Māori" ∨ language = "German")
    (hr : rt = REQUEST_DATE ∨ rt = REQUEST_TIME) :
    isErr (process_packet (builtResponse dt language rt)) = false ∧
    languageTypeOf (builtResponse dt language rt) = (langCode language : Int) ∧
    yearOf (builtResponse dt language rt) = (dt.year : Int) ∧
    monthOf (builtResponse dt language rt) = (dt.month : Int) ∧
    dayOf (builtResponse dt language rt) = (dt.day : Int) ∧
    hourOf (builtResponse dt language rt) = (dt.hour : Int) ∧
    minuteOf (builtResponse dt language rt) = (dt.minute : Int) := by
  obtain ⟨text, ht, hlen, hv, hcr⟩ := create_response_spec dt language rt hdt hl hr
  obtain ⟨g1, g2, g3, g4, g5, g6, g7, g8⟩ := hdt
  have hbr : builtResponse dt language rt =
      54 :: 251 :: 0 :: 2 :: 0 :: langCode language :: dt.year / 256 :: dt.year % 256 ::
        dt.month :: dt.day :: dt.hour :: dt.minute :: text.length :: text := by
    unfold builtResponse
    rw [hcr]
    rfl
  have hlc : langCode language = 1 ∨ langCode language = 2 ∨ langCode language = 3 := by
    rcases hl with rfl | rfl | rfl <;> simp [langCode]
  have e0 : (builtResponse dt language rt).getD 0 0 = 54 := by rw [hbr]; rfl
  have e1 : (builtResponse dt language rt).getD 1 0 = 251 := by rw [hbr]; rfl
  have e2 : (builtResponse dt language rt).getD 2 0 = 0 := by rw [hbr]; rfl
  have e3 : (builtResponse dt language rt).getD 3 0 = 2 := by rw [hbr]; rfl
  have e4 : (builtResponse dt language rt).getD 4 0 = 0 := by rw [hbr]; rfl
  have e5 : (builtResponse dt language rt).getD 5 0 = langCode language := by rw [hbr]; rfl
  have e6 : (builtResponse dt language rt).getD 6 0 = dt.year / 256 := by rw [hbr]; rfl
  have e7 : (builtResponse dt language rt).getD 7 0 = dt.year % 256 := by rw [hbr]; rfl
  have e8 : (builtResponse dt language rt).getD 8 0 = dt.month := by rw [hbr]; rfl
  have e9 : (builtResponse dt language rt).getD 9 0 = dt.day := by rw [hbr]; rfl
  have e10 : (builtResponse dt language rt).getD 10 0 = dt.hour := by rw [hbr]; rfl
  have e11 : (builtResponse dt language rt).getD 11 0 = dt.minute := by rw [hbr]; rfl
  have e12 : (builtResponse dt language rt).getD 12 0 = text.length := by rw [hbr]; rfl
  have edrop : (builtResponse dt language rt).drop 13 = text := by rw [hbr]; rfl
  have elen : (builtResponse dt language rt).length = 13 + text.length := by
    rw [hbr]; simp; omega
  have fmagic : magicOf (builtResponse dt language rt) = (MAGIC_NUM : Int) := by
    unfold magicOf; rw [e0, e1]; unfold MAGIC_NUM; omega
  have ftype : packetTypeOf (builtResponse dt language rt) = 2 := by
    unfold packetTypeOf; rw [e2, e3]; omega
  have flang : languageTypeOf (builtResponse dt language rt) = (langCode language : Int) := by
    unfold languageTypeOf; rw [e4, e5]; omega
  have fyear : yearOf (builtResponse dt language rt) = (dt.year : Int) := by
    unfold yearOf; rw [e6, e7]; omega
  have fmonth : monthOf (builtResponse dt language rt) = (dt.month : Int) := by
    unfold monthOf; rw [e8]
  have fday : dayOf (builtResponse dt language rt) = (dt.day : Int) := by
    unfold dayOf; rw [e9]
  have fhour : hourOf (builtResponse dt language rt) = (dt.hour : Int) := by
    unfold hourOf; rw [e10]
  have fminute : minuteOf (builtResponse dt language rt) = (dt.minute : Int) := by
    unfold minuteOf; rw [e11]
  have ffield : lengthFieldOf (builtResponse dt language rt) = (text.length : Int) := by
    unfold lengthFieldOf; rw [e12]
  refine ⟨?_, flang, fyear, fmonth, fday, fhour, fminute⟩
  have hne : ¬ ((builtResponse dt language rt).length < 13 ∨
      magicOf (builtResponse dt language rt) ≠ (MAGIC_NUM : Int) ∨
      packetTypeOf (builtResponse dt language rt) ≠ 0x0002 ∨
      ¬(languageTypeOf (builtResponse dt language rt) = 0x0001 ∨
        languageTypeOf (builtResponse dt language rt) = 0x0002 ∨
        languageTypeOf (builtResponse dt language rt) = 0x0003) ∨
      2100 < yearOf (builtResponse dt language rt) ∨
      (monthOf (builtResponse dt language rt) < 1 ∨ 12 < monthOf (builtResponse dt language rt)) ∨
      (dayOf (builtResponse dt language rt) < 1 ∨ 31 < dayOf (builtResponse dt language rt)) ∨
      (hourOf (builtResponse dt language rt) < 0 ∨ 23 < hourOf (builtResponse dt language rt)) ∨
      (minuteOf (builtResponse dt language rt) < 0 ∨
        59 < minuteOf (builtResponse dt language rt)) ∨
      ((builtResponse dt language rt).length : Int) ≠
        13 + lengthFieldOf (builtResponse dt language rt) ∨
      validUtf8 ((builtResponse dt language rt).drop 13) ≠ true) := by
    push_neg
    refine ⟨by omega, fmagic, ftype, ?_, by rw [fyear]; omega, ?_, ?_, ?_, ?_, ?_, ?_⟩
    · rw [flang]
      rcases hlc with h | h | h <;> rw [h]
      · exact Or.inl rfl
      · exact Or.inr (Or.inl rfl)
      · exact Or.inr (Or.inr rfl)
    · rw [fmonth]; constructor <;> omega
    · rw [fday]; constructor <;> omega
    · rw [fhour]; constructor <;> omega
    · rw [fminute]; constructor <;> omega
    · rw [ffield, elen]; push_cast; omega
    · rw [edrop]; exact hv
  cases hE : isErr (process_packet (builtResponse dt language rt)) with
  | false => rfl
  | true => exact absurd ((process_packet_isErr_iff (builtResponse dt language rt)).mp hE) hne

/-- Witness for claim C8 at a Māori time request on 7 May 2021, 03:09. -/
theorem claim_C8_witness :
    isErr (process_packet (builtResponse ⟨2021, 5, 7, 3, 9⟩ "Māori" REQUEST_TIME)) = false ∧
    languageTypeOf (builtResponse ⟨2021, 5, 7, 3, 9⟩ "Māori" REQUEST_TIME) =
      (langCode "Māori" : Int) ∧
    yearOf (builtResponse ⟨2021, 5, 7, 3, 9⟩ "Māori" REQUEST_TIME) = (2021 : Int) ∧
    monthOf (builtResponse ⟨2021, 5, 7, 3, 9⟩ "Māori" REQUEST_TIME) = (5 : Int) ∧
    dayOf (builtResponse ⟨2021, 5, 7, 3, 9⟩ "Māori" REQUEST_TIME) = (7 : Int) ∧
    hourOf (builtResponse ⟨2021, 5, 7, 3, 9⟩ "Māori" REQUEST_TIME) = (3 : Int) ∧
    minuteOf (builtResponse ⟨2021, 5, 7, 3, 9⟩ "Māori" REQUEST_TIME) = (9 : Int) :=
  claim_C8_encode_decode_roundtrip ⟨2021, 5, 7, 3, 9⟩ "Māori" REQUEST_TIME
    (by decide) (by decide) (Or.inr (Or.inl rfl)) (Or.inr rfl)

/-- Claim C10: the hour field the client decoder reads is the single byte
at offset 10, so on any response of at least 13 byte-valued entries it
lies in 0 to 255; the lower-bound half of the hour rejection test of
Client.process_packet can therefore never fire, and the hour rejection
condition is equivalent to just the upper-bound comparison. -/
theorem claim_C10_hour_lower_bound_unreachable (p : List Nat)
    (hlen : 13 ≤ p.length) (hbytes : ∀ b ∈ p, b < 256) :
    0 ≤ hourOf p ∧ hourOf p ≤ 255 ∧ ¬(hourOf p < 0) ∧
    ((hourOf p < 0 ∨ 23 < hourOf p) ↔ 23 < hourOf p) := by
  have hmem : p.getD 10 0 ∈ p := getD_mem p 10 (by omega)
  have hb : p.getD 10 0 < 256 := hbytes _ hmem
  unfold hourOf
  refine ⟨by omega, by omega, by omega, ⟨fun h => ?_, fun h => Or.inr h⟩⟩
  rcases h with h | h
  · omega
  · exact h

/-- Witness for claim C10 at a 13-byte all-zero packet. -/
theorem claim_C10_witness :
    0 ≤ hourOf (List.replicate 13 0) ∧ hourOf (List.replicate 13 0) ≤ 255 ∧
    ¬(hourOf (List.replicate 13 0) < 0) ∧
    ((hourOf (List.replicate 13 0) < 0 ∨ 23 < hourOf (List.replicate 13 0)) ↔
      23 < hourOf (List.replicate 13 0)) :=
  claim_C10_hour_lower_bound_unreachable (List.replicate 13 0) (by simp)
    (by intro b hb; rw [List.eq_of_mem_replicate hb]; omega)
